import Mathlib

/-!
Shallow embedding of sentinel's chat-ingestion and tool-call-state handlers
(`server/handlers2.go`) and of the review event hub, together with theorems
checking the design document against this code.

Modelling conventions:
* A Go function returning `(T, error)` becomes a Lean function returning
  `Except String T`; a body that can additionally panic at runtime (out-of-range
  slice, nil-pointer dereference) returns `GoResult T`, which has an explicit
  `panicked` outcome distinct from a returned error.
* The `Store` interface and the external decoders (`base64.StdEncoding`,
  `encoding/json`) are opaque collaborators: they are fields of an environment
  record and the theorems quantify over them.
* `uuid.New()` is modelled by a supply `gen : Nat → String` threaded through the
  conversion functions as an explicit counter, mirroring the order in which the
  Go code draws fresh identifiers.
-/

set_option autoImplicit false

namespace Sentinel

/-- Outcome of a Go function returning a value and an error, where the body may
additionally panic at runtime (e.g. an out-of-range slice expression). -/
inductive GoResult (α : Type) where
  | ok : α → GoResult α
  | err : String → GoResult α
  | panicked : String → GoResult α
deriving DecidableEq, Repr

/-- Modelled from the spec: the internal message content-type enumeration
(spec §3: content type is `text` or `image-url`).  The Go type `MessageType`
is declared outside the given source; the spec fixes the classification of a
message with neither textual content nor an image part to an empty `Text`
message, so the Go zero value produced by `var msgType MessageType` in
`convertMessage` is modelled as `text`. -/
inductive MessageType where
  | text
  | imageUrl
deriving DecidableEq, Repr

/-- Internal tool-call record (`SentinelToolCall`); `Name` and `Arguments` are
pointer fields in Go, hence `Option`. -/
structure SentinelToolCall where
  Id : String
  ToolId : String
  Name : Option String
  Arguments : Option String
deriving DecidableEq, Repr

/-- Internal message record (`SentinelMessage`); pointer-typed fields
(`Id`, `ToolCalls`, `Type`) are `Option`s. -/
structure SentinelMessage where
  Id : Option String
  Role : String
  ToolCalls : Option (List SentinelToolCall)
  «Type» : Option MessageType
  Content : String
deriving DecidableEq, Repr

/-- Internal choice record (`SentinelChoice`).  `SentinelChoiceFinishReason`
is a string-based Go type: the conversion
`SentinelChoiceFinishReason(choice.FinishReason)` in `convertChoices` is a
value-preserving cast on the underlying string, so the field is a `String`. -/
structure SentinelChoice where
  SentinelId : String
  Index : Int
  Message : SentinelMessage
  FinishReason : String
deriving DecidableEq, Repr

/-- One `{toolCallId, toolId}` entry of the identifier projection (`ToolCallIds`);
both fields are string pointers in Go. -/
structure ToolCallIds where
  ToolCallId : Option String
  ToolId : Option String
deriving DecidableEq, Repr

/-- Per-choice entry of the identifier projection (`ChoiceIds`). -/
structure ChoiceIds where
  ChoiceId : String
  MessageId : String
  ToolCallIds : List ToolCallIds
deriving DecidableEq, Repr

/-- The identifier projection returned by a successful ingestion (`ChatIds`). -/
structure ChatIds where
  ChatId : String
  ChoiceIds : List ChoiceIds
deriving DecidableEq, Repr

/-- The ingestion request body (`SentinelChat`): two base64-encoded JSON
documents. -/
structure SentinelChat where
  RequestData : String
  ResponseData : String
deriving DecidableEq, Repr

/-- A tool registered for a run, as returned by
`Store.GetToolFromNameAndRunId`; only its identifier is read by the handlers. -/
structure Tool where
  Id : String
deriving DecidableEq, Repr

/-- The tool-call record returned by `Store.GetToolCall`; the state handler
reads only its `ToolId`. -/
structure ToolCall where
  ToolId : String
deriving DecidableEq, Repr

/-- A supervisor chain configured for a tool (`Store.GetSupervisorChains`);
the handler reads only its chain identifier. -/
structure SupervisorChain where
  ChainId : String
deriving DecidableEq, Repr

/-- A chain-execution state snapshot; the handler treats it as opaque data that
is appended to the per-chain result list. -/
structure ChainExecutionState where
  Data : String
deriving DecidableEq, Repr

/-- The aggregate view returned by the tool-call state handler
(`RunExecution`). -/
structure RunExecution where
  Chains : List ChainExecutionState
  Toolcall : ToolCall
  Status : String
deriving DecidableEq, Repr

/-- The `Store` interface, restricted to the methods the two handlers call.
Each method is an arbitrary function so the theorems quantify over every
store behaviour. -/
structure Store where
  getMessagesForRun : String → Except String (List SentinelMessage)
  getToolFromNameAndRunId : String → String → Except String (Option Tool)
  createChatRequest : String → String → String → List SentinelChoice → String →
    List SentinelMessage → Except String String
  getToolCall : String → Except String (Option ToolCall)
  getSupervisorChains : String → Except String (List SupervisorChain)
  getChainExecutionFromChainAndToolCall : String → String → Except String (Option String)
  getChainExecutionState : String → Except String ChainExecutionState

/-- Image-url payload of a multi-content part (`openai.ChatMessageImageURL`). -/
structure ImageURLPart where
  URL : String
deriving DecidableEq, Repr

/-- One multi-content part of an external message (`openai.ChatMessagePart`).
`ImageURL` is a pointer (`*ChatMessageImageURL` — see the debug output quoted
at handlers2.go:176, `ImageURL:0xc000220320`), hence `Option`; a decoded
`image_url` part can carry a nil pointer, which handlers2.go:186 dereferences
unchecked. -/
structure ChatMessagePart where
  type : String
  text : String
  imageURL : Option ImageURLPart
deriving DecidableEq, Repr

/-- Function payload of an external tool call (`openai.FunctionCall`). -/
structure OpenAIFunctionCall where
  name : String
  arguments : String
deriving DecidableEq, Repr

/-- An external tool call (`openai.ToolCall`); the handlers read only its
function name and arguments. -/
structure OpenAIToolCall where
  function : OpenAIFunctionCall
deriving DecidableEq, Repr

/-- An external chat message (`openai.ChatCompletionMessage`).  `MultiContent`
is a Go slice that is checked against `nil`, hence `Option (List _)`. -/
structure OpenAIMessage where
  role : String
  content : String
  multiContent : Option (List ChatMessagePart)
  toolCalls : List OpenAIToolCall
deriving DecidableEq, Repr

/-- An external response choice (`openai.ChatCompletionChoice`). -/
structure OpenAIChoice where
  index : Int
  message : OpenAIMessage
  finishReason : String
deriving DecidableEq, Repr

/-- An external chat-completion request; the handlers read only its messages. -/
structure OpenAIRequest where
  messages : List OpenAIMessage
deriving DecidableEq, Repr

/-- An external chat-completion response; the handlers read only its choices. -/
structure OpenAIResponse where
  choices : List OpenAIChoice
deriving DecidableEq, Repr

/-- The environment of the handlers: the store plus the external collaborators
(base64 decoder, JSON codec, UUID generation and parsing) and the aggregation
policy function. -/
structure Env where
  store : Store
  base64Decode : String → Except String String
  unmarshalRequest : String → Except String OpenAIRequest
  marshalRequest : OpenAIRequest → Except String String
  unmarshalResponse : String → Except String OpenAIResponse
  marshalResponse : OpenAIResponse → Except String String
  gen : Nat → String
  uuidParse : String → Except String String
  /-- Modelled from the spec: `getToolCallStatus` (the aggregation policy
  function, spec §4.2 step 6) is not part of the given source; only its call
  site is, which passes it the tool-call identifier and the store.  It is kept
  fully abstract here. -/
  getToolCallStatus : String → Store → Except String String

/-- Go slice expression `xs[n:]` on a slice of length `len(xs)`: it yields the
suffix when `n ≤ len(xs)` and panics with a bounds error otherwise. -/
def goSliceFrom {α : Type} (xs : List α) (n : Nat) : GoResult (List α) :=
  if n ≤ xs.length then GoResult.ok (xs.drop n)
  else GoResult.panicked "runtime error: slice bounds out of range"

/-- `filterRequestMessages` (handlers2.go:81): fetches the messages already
logged for the run and cuts that many messages off the front of the freshly
converted request-message list via the slice `requestMessages[numMessagesLogged:]`. -/
def filterRequestMessages (store : Store) (requestMessages : List SentinelMessage)
    (runId : String) : GoResult (List SentinelMessage) :=
  match store.getMessagesForRun runId with
  | Except.error e => GoResult.err ("error getting messages for run: " ++ e)
  | Except.ok messagesForRun =>
      let numMessagesLogged := messagesForRun.length
      goSliceFrom requestMessages numMessagesLogged

/-- `convertToolCall` (handlers2.go:219): resolves the named tool for the run;
a store error or an unresolved name fails the conversion, otherwise a fresh
identifier is drawn and a `SentinelToolCall` is emitted. -/
def convertToolCall (env : Env) (toolCall : OpenAIToolCall) (runId : String) (n : Nat) :
    Except String (Option SentinelToolCall × Nat) :=
  match env.store.getToolFromNameAndRunId toolCall.function.name runId with
  | Except.error e => Except.error ("error getting tool: " ++ e)
  | Except.ok none => Except.error ("tool not found: " ++ toolCall.function.name)
  | Except.ok (some tool) =>
      Except.ok (some { Id := env.gen n, ToolId := tool.Id,
                        Name := some toolCall.function.name,
                        Arguments := some toolCall.function.arguments }, n + 1)

/-- `convertToolCalls` (handlers2.go:205): converts each tool call in order,
wrapping any element failure; a `nil` element result is skipped (the Go loop
checks `toolCall != nil` although `convertToolCall` never returns `nil` on
success). -/
def convertToolCalls (env : Env) (toolCalls : List OpenAIToolCall) (runId : String) (n : Nat) :
    Except String (List SentinelToolCall × Nat) :=
  match toolCalls with
  | [] => Except.ok ([], n)
  | tc :: rest =>
      match convertToolCall env tc runId n with
      | Except.error e => Except.error ("error converting tool call: " ++ e)
      | Except.ok (stc, n1) =>
          match convertToolCalls env rest runId n1 with
          | Except.error e => Except.error e
          | Except.ok (l, n2) =>
              match stc with
              | none => Except.ok (l, n2)
              | some s => Except.ok (s :: l, n2)

/-- The multi-content scan of `convertMessage` (handlers2.go:182-188): the loop
starts from the Go zero values of `msgType`/`msgContent` and overwrites both on
every part whose type is `image_url`, so the last matching part wins.  The
assignment `msgContent = string(content.ImageURL.URL)` dereferences the
`ImageURL` pointer without a nil check: an `image_url` part whose pointer is
nil panics the scan. -/
def scanMultiContent (parts : List ChatMessagePart) (acc : MessageType × String) :
    GoResult (MessageType × String) :=
  match parts with
  | [] => GoResult.ok acc
  | content :: rest =>
      if content.type = "image_url" then
        match content.imageURL with
        | none =>
            GoResult.panicked
              "runtime error: invalid memory address or nil pointer dereference"
        | some img => scanMultiContent rest (MessageType.imageUrl, img.URL)
      else scanMultiContent rest acc

/-- `convertMessage` (handlers2.go:169): converts the embedded tool calls, then
classifies the content — a non-`nil` `MultiContent` is scanned for image-url
parts (a scan that can panic on a nil `ImageURL` pointer), otherwise the raw
text content is kept — and draws a fresh message identifier.  The scan itself
never returns a Go error, so the `err` passthrough arm is vacuous. -/
def convertMessage (env : Env) (message : OpenAIMessage) (runId : String) (n : Nat) :
    GoResult (SentinelMessage × Nat) :=
  match convertToolCalls env message.toolCalls runId n with
  | Except.error e => GoResult.err ("error converting tool calls: " ++ e)
  | Except.ok (toolCalls, n1) =>
      let scanned : GoResult (MessageType × String) :=
        match message.multiContent with
        | some parts => scanMultiContent parts (MessageType.text, "")
        | none => GoResult.ok (MessageType.text, message.content)
      match scanned with
      | GoResult.err e => GoResult.err e
      | GoResult.panicked m => GoResult.panicked m
      | GoResult.ok tc =>
          GoResult.ok ({ Id := some (env.gen n1), Role := message.role,
                         ToolCalls := some toolCalls, «Type» := some tc.1,
                         Content := tc.2 }, n1 + 1)

/-- `convertChoices` (handlers2.go:149): converts each choice's message, draws a
fresh choice identifier, copies the index and casts the provider finish reason
verbatim into the internal string-based finish-reason type.  A Go error of the
message conversion is wrapped per element; a panic unwinds unwrapped. -/
def convertChoices (env : Env) (choices : List OpenAIChoice) (runId : String) (n : Nat) :
    GoResult (List SentinelChoice × Nat) :=
  match choices with
  | [] => GoResult.ok ([], n)
  | choice :: rest =>
      match convertMessage env choice.message runId n with
      | GoResult.err e => GoResult.err ("error converting message: " ++ e)
      | GoResult.panicked m => GoResult.panicked m
      | GoResult.ok (message, n1) =>
          match convertChoices env rest runId (n1 + 1) with
          | GoResult.err e => GoResult.err e
          | GoResult.panicked m => GoResult.panicked m
          | GoResult.ok (l, n2) =>
              GoResult.ok ({ SentinelId := env.gen n1, Index := choice.index,
                             Message := message,
                             FinishReason := choice.finishReason } :: l, n2)

/-- The message-conversion loop of `validateAndDecodeRequest`
(handlers2.go:112-119), wrapping any element failure; a panic unwinds
unwrapped. -/
def convertMessages (env : Env) (messages : List OpenAIMessage) (runId : String) (n : Nat) :
    GoResult (List SentinelMessage × Nat) :=
  match messages with
  | [] => GoResult.ok ([], n)
  | m :: rest =>
      match convertMessage env m runId n with
      | GoResult.err e => GoResult.err ("error converting messages: " ++ e)
      | GoResult.panicked mm => GoResult.panicked mm
      | GoResult.ok (cm, n1) =>
          match convertMessages env rest runId n1 with
          | GoResult.err e => GoResult.err e
          | GoResult.panicked mm => GoResult.panicked mm
          | GoResult.ok (l, n2) => GoResult.ok (cm :: l, n2)

/-- `validateAndDecodeRequest` (handlers2.go:98): base64-decode, unmarshal,
convert every request message, and re-marshal the decoded request.  Decoding
failures are Go errors; a conversion panic unwinds. -/
def validateAndDecodeRequest (env : Env) (encodedData : String) (runId : String) (n : Nat) :
    GoResult (String × List SentinelMessage × Nat) :=
  match env.base64Decode encodedData with
  | Except.error e => GoResult.err ("invalid base64 format: " ++ e)
  | Except.ok decodedRequest =>
      match env.unmarshalRequest decodedRequest with
      | Except.error e => GoResult.err ("invalid request format: " ++ e)
      | Except.ok v =>
          match convertMessages env v.messages runId n with
          | GoResult.err e => GoResult.err e
          | GoResult.panicked m => GoResult.panicked m
          | GoResult.ok (convertedMessages, n1) =>
              match env.marshalRequest v with
              | Except.error e => GoResult.err ("error marshalling request: " ++ e)
              | Except.ok marshaledRequest =>
                  GoResult.ok (marshaledRequest, convertedMessages, n1)

/-- `validateAndDecodeResponse` (handlers2.go:130): base64-decode, unmarshal and
re-marshal the chat-completion response. -/
def validateAndDecodeResponse (env : Env) (encodedData : String) :
    Except String (String × OpenAIResponse) :=
  match env.base64Decode encodedData with
  | Except.error e => Except.error ("invalid base64 format: " ++ e)
  | Except.ok decodedResponse =>
      match env.unmarshalResponse decodedResponse with
      | Except.error e => Except.error ("invalid response format: " ++ e)
      | Except.ok v =>
          match env.marshalResponse v with
          | Except.error e => Except.error ("error marshalling response: " ++ e)
          | Except.ok b => Except.ok (b, v)

/-- The loop body of `extractChatIds` (handlers2.go:245-262): one `ChoiceIds`
entry per choice, appended in order; `*choice.Message.Id` is a pointer
dereference, modelled by `Option.get!`; the tool-call pairs are emitted only
when the `ToolCalls` pointer is non-`nil`. -/
def extractChatIdsLoop (choices : List SentinelChoice) (acc : List ChoiceIds) :
    List ChoiceIds :=
  match choices with
  | [] => acc
  | choice :: rest =>
      let choiceIds : ChoiceIds :=
        { ChoiceId := choice.SentinelId,
          MessageId := choice.Message.Id.get!,
          ToolCallIds :=
            match choice.Message.ToolCalls with
            | none => []
            | some toolCalls =>
                toolCalls.map (fun toolCall =>
                  { ToolCallId := some toolCall.Id, ToolId := some toolCall.ToolId }) }
      extractChatIdsLoop rest (acc ++ [choiceIds])

/-- `extractChatIds` (handlers2.go:239): the identifier projection returned to
the caller of a successful ingestion. -/
def extractChatIds (chatId : String) (choices : List SentinelChoice) : ChatIds :=
  { ChatId := chatId, ChoiceIds := extractChatIdsLoop choices [] }

/-- Response written by `apiCreateNewChatHandler`: a JSON body with an HTTP
status, an error body (`sendErrorResponse` status/message/details), or a
runtime panic escaping the handler. -/
inductive ChatHandlerResp where
  | json : ChatIds → Nat → ChatHandlerResp
  | errorResp : Nat → String → String → ChatHandlerResp
  | panicked : String → ChatHandlerResp
deriving DecidableEq, Repr

/-- Observable outcome of one ingestion call: the HTTP response plus the
payload submitted to `Store.CreateChatRequest`, or `none` when that write was
never reached. -/
structure ChatHandlerOut where
  resp : ChatHandlerResp
  write : Option (List SentinelChoice × List SentinelMessage)
deriving DecidableEq, Repr

/-- `apiCreateNewChatHandler` (handlers2.go:29): decode the body, decode and
convert the request, filter previously-seen messages, decode the response,
convert the choices, persist, and project the created identifiers.  Every
failure branch responds with HTTP 400 (`http.StatusBadRequest`). -/
def apiCreateNewChatHandler (env : Env) (runId : String)
    (body : Except String SentinelChat) : ChatHandlerOut :=
  match body with
  | Except.error e =>
      { resp := ChatHandlerResp.errorResp 400 "Invalid JSON format" e, write := none }
  | Except.ok payload =>
  match validateAndDecodeRequest env payload.RequestData runId 0 with
  | GoResult.err e =>
      { resp := ChatHandlerResp.errorResp 400 ("Request: " ++ e) "", write := none }
  | GoResult.panicked m => { resp := ChatHandlerResp.panicked m, write := none }
  | GoResult.ok (jsonRequest, requestMessages, n1) =>
  match filterRequestMessages env.store requestMessages runId with
  | GoResult.err e =>
      { resp := ChatHandlerResp.errorResp 400 ("Error filtering request messages: " ++ e) "",
        write := none }
  | GoResult.panicked m => { resp := ChatHandlerResp.panicked m, write := none }
  | GoResult.ok newRequestMessages =>
  match validateAndDecodeResponse env payload.ResponseData with
  | Except.error e =>
      { resp := ChatHandlerResp.errorResp 400 ("Response: " ++ e) "", write := none }
  | Except.ok (jsonResponse, response) =>
  match convertChoices env response.choices runId n1 with
  | GoResult.err e =>
      { resp := ChatHandlerResp.errorResp 400 ("Error converting choices: " ++ e) "",
        write := none }
  | GoResult.panicked m => { resp := ChatHandlerResp.panicked m, write := none }
  | GoResult.ok (choices, _) =>
  match env.store.createChatRequest runId jsonRequest jsonResponse choices "openai"
      newRequestMessages with
  | Except.error e =>
      { resp := ChatHandlerResp.errorResp 400 ("Error creating chat request: " ++ e) "",
        write := some (choices, newRequestMessages) }
  | Except.ok id =>
      { resp := ChatHandlerResp.json (extractChatIds id choices) 200,
        write := some (choices, newRequestMessages) }

/-- Response written by `apiGetToolCallStateHandler`. -/
inductive StateHandlerResp where
  | json : RunExecution → Nat → StateHandlerResp
  | errorResp : Nat → String → String → StateHandlerResp
  | panicked : String → StateHandlerResp
deriving DecidableEq, Repr

/-- The chain loop of `apiGetToolCallStateHandler` (handlers2.go:312-327): for
each chain the execution id is looked up; a store error responds 500, and an
absent execution id (`nil` without error) is dereferenced unchecked
(`*chainExecutionId`), which is a nil-pointer panic. -/
def collectChainStates (store : Store) (toolCallId : String)
    (chains : List SupervisorChain) (acc : List ChainExecutionState) :
    Except StateHandlerResp (List ChainExecutionState) :=
  match chains with
  | [] => Except.ok acc
  | chain :: rest =>
      match store.getChainExecutionFromChainAndToolCall chain.ChainId toolCallId with
      | Except.error e =>
          Except.error (StateHandlerResp.errorResp 500 "error getting chain execution" e)
      | Except.ok none =>
          Except.error (StateHandlerResp.panicked
            "runtime error: invalid memory address or nil pointer dereference")
      | Except.ok (some chainExecutionId) =>
          match store.getChainExecutionState chainExecutionId with
          | Except.error e =>
              Except.error
                (StateHandlerResp.errorResp 500 "error getting chain execution state" e)
          | Except.ok ceState => collectChainStates store toolCallId rest (acc ++ [ceState])

/-- `apiGetToolCallStateHandler` (handlers2.go:280): look up the tool call (404
when absent), parse its tool id, enumerate the tool's chains, collect each
chain's execution state, then obtain the aggregate status from
`getToolCallStatus(ctx, toolCallId, store)` and respond with the
`RunExecution` projection. -/
def apiGetToolCallStateHandler (env : Env) (toolCallId : String) : StateHandlerResp :=
  match env.store.getToolCall toolCallId with
  | Except.error e => StateHandlerResp.errorResp 500 "error getting tool call" e
  | Except.ok none => StateHandlerResp.errorResp 404 "Run not found" ""
  | Except.ok (some toolCall) =>
  match env.uuidParse toolCall.ToolId with
  | Except.error e => StateHandlerResp.errorResp 500 "error parsing tool id" e
  | Except.ok toolId =>
  match env.store.getSupervisorChains toolId with
  | Except.error e => StateHandlerResp.errorResp 500 "error getting chains" e
  | Except.ok chains =>
  match collectChainStates env.store toolCallId chains [] with
  | Except.error r => r
  | Except.ok states =>
  match env.getToolCallStatus toolCallId env.store with
  | Except.error e => StateHandlerResp.errorResp 500 "error getting tool call status" e
  | Except.ok status =>
      StateHandlerResp.json { Chains := states, Toolcall := toolCall, Status := status } 200

/-- Modelled from the spec: one command processed by the hub's single broadcast
loop (spec §4.3/§5 — the hub source is not part of the given files; register,
unregister and publish requests reach the loop only by message passing and are
serialized through it). -/
inductive HubCmd where
  | register : Nat → HubCmd
  | unregister : Nat → HubCmd
  | publish : Nat → HubCmd
deriving DecidableEq, Repr

/-- Modelled from the spec: the hub loop's state — the subscriber registry and,
per subscriber, the sequence of events delivered to it so far (its receive
history, preserved after unregistration). -/
structure HubState where
  registered : List Nat
  delivered : Nat → List Nat

/-- The hub's initial state: nobody registered, nothing delivered. -/
def hubInit : HubState := { registered := [], delivered := fun _ => [] }

/-- Modelled from the spec: one step of the hub loop.  `register` adds the
subscriber to the registry, `unregister` removes it, and `publish` appends the
event to the receive history of exactly the subscribers registered at this
moment. -/
def hubStep (st : HubState) (c : HubCmd) : HubState :=
  match c with
  | HubCmd.register s =>
      if s ∈ st.registered then st else { st with registered := s :: st.registered }
  | HubCmd.unregister s =>
      { st with registered := st.registered.filter (fun t => t ≠ s) }
  | HubCmd.publish e =>
      { st with delivered := fun t =>
          if t ∈ st.registered then st.delivered t ++ [e] else st.delivered t }

/-- The hub loop run over a whole command sequence. -/
def hubRun (st : HubState) (cmds : List HubCmd) : HubState :=
  match cmds with
  | [] => st
  | c :: rest => hubRun (hubStep st c) rest

/-- The events published while subscriber `s` is registered, in publish order:
the reference delivery sequence against which the hub run is checked. -/
def publishesSeenBy (s : Nat) (st : HubState) (cmds : List HubCmd) : List Nat :=
  match cmds with
  | [] => []
  | c :: rest =>
      match c with
      | HubCmd.publish e =>
          (if s ∈ st.registered then [e] else []) ++ publishesSeenBy s (hubStep st c) rest
      | _ => publishesSeenBy s (hubStep st c) rest

/-- All events published in a command sequence, in publish order. -/
def publishLog (cmds : List HubCmd) : List Nat :=
  match cmds with
  | [] => []
  | HubCmd.publish e :: rest => e :: publishLog rest
  | _ :: rest => publishLog rest

/-! Concrete stores and environments used by the witnesses and
counterexamples below. -/

/-- A sample already-logged message. -/
def msgA : SentinelMessage :=
  { Id := some "a", Role := "user", ToolCalls := none, «Type» := some MessageType.text,
    Content := "first" }

/-- A sample new message. -/
def msgB : SentinelMessage :=
  { Id := some "b", Role := "assistant", ToolCalls := none, «Type» := some MessageType.text,
    Content := "second" }

/-- A store for the run `run1` with exactly one message already logged. -/
def storeOneLogged : Store :=
  { getMessagesForRun := fun _ => Except.ok [msgA],
    getToolFromNameAndRunId := fun _ _ => Except.ok none,
    createChatRequest := fun _ _ _ _ _ _ => Except.error "unused",
    getToolCall := fun _ => Except.ok none,
    getSupervisorChains := fun _ => Except.ok [],
    getChainExecutionFromChainAndToolCall := fun _ _ => Except.ok none,
    getChainExecutionState := fun _ => Except.error "unused" }

/-- An external response choice whose single tool call names `ghost`, a tool
not registered for the run. -/
def ghostChoice : OpenAIChoice :=
  { index := 0,
    message := { role := "assistant", content := "", multiContent := none,
                 toolCalls := [{ function := { name := "ghost", arguments := "null" } }] },
    finishReason := "tool_calls" }

/-- A store that has no messages logged and resolves no tool name. -/
def storeNoTools : Store :=
  { getMessagesForRun := fun _ => Except.ok [],
    getToolFromNameAndRunId := fun _ _ => Except.ok none,
    createChatRequest := fun _ _ _ _ _ _ => Except.ok "chat1",
    getToolCall := fun _ => Except.ok none,
    getSupervisorChains := fun _ => Except.ok [],
    getChainExecutionFromChainAndToolCall := fun _ _ => Except.ok none,
    getChainExecutionState := fun _ => Except.error "unused" }

/-- An environment around `storeNoTools` whose decoders accept everything and
whose decoded response consists of the single `ghost` choice. -/
def envGhost : Env :=
  { store := storeNoTools,
    base64Decode := fun s => Except.ok s,
    unmarshalRequest := fun _ => Except.ok { messages := [] },
    marshalRequest := fun _ => Except.ok "",
    unmarshalResponse := fun _ => Except.ok { choices := [ghostChoice] },
    marshalResponse := fun _ => Except.ok "",
    gen := fun _ => "u",
    uuidParse := fun s => Except.ok s,
    getToolCallStatus := fun _ _ => Except.error "unused" }

/-- An external choice with an unknown provider finish reason and no tool
calls. -/
def bananaChoice : OpenAIChoice :=
  { index := 0,
    message := { role := "assistant", content := "hi", multiContent := none, toolCalls := [] },
    finishReason := "banana" }

/-- An environment whose decoded response is the single `bananaChoice`. -/
def envBanana : Env :=
  { store := storeNoTools,
    base64Decode := fun s => Except.ok s,
    unmarshalRequest := fun _ => Except.ok { messages := [] },
    marshalRequest := fun _ => Except.ok "",
    unmarshalResponse := fun _ => Except.ok { choices := [bananaChoice] },
    marshalResponse := fun _ => Except.ok "",
    gen := fun _ => "u",
    uuidParse := fun s => Except.ok s,
    getToolCallStatus := fun _ _ => Except.error "unused" }

/-- A store whose chat-creation write fails (the persistence layer is down);
everything before the write succeeds. -/
def storeWriteDown : Store :=
  { storeNoTools with
    createChatRequest := fun _ _ _ _ _ _ => Except.error "database unavailable" }

/-- A store whose run-message read fails. -/
def storeReadDown : Store :=
  { storeNoTools with getMessagesForRun := fun _ => Except.error "database unavailable" }

/-- An environment around `storeWriteDown` with an empty decoded request and
response. -/
def envWriteDown : Env :=
  { envBanana with
    store := storeWriteDown,
    unmarshalResponse := fun _ => Except.ok { choices := [] } }

/-- An environment around `storeReadDown` with an empty decoded request and
response. -/
def envReadDown : Env :=
  { envBanana with
    store := storeReadDown,
    unmarshalResponse := fun _ => Except.ok { choices := [] } }

/-- A request message carrying multi-part content: a text part (with, as usual,
a nil image pointer) followed by two well-formed image-url parts. -/
def twoImageMessage : OpenAIMessage :=
  { role := "user", content := "",
    multiContent := some
      [{ type := "text", text := "look", imageURL := none },
       { type := "image_url", text := "", imageURL := some { URL := "https://one" } },
       { type := "image_url", text := "", imageURL := some { URL := "https://two" } }],
    toolCalls := [] }

/-- A message whose multi-part content holds an `image_url` part with a nil
`ImageURL` pointer — decodable from a payload such as a content array
containing only a part of type `image_url` with no image object. -/
def nilImageMessage : OpenAIMessage :=
  { role := "user", content := "",
    multiContent := some [{ type := "image_url", text := "", imageURL := none }],
    toolCalls := [] }

/-- A response choice wrapping `nilImageMessage` (no tool calls). -/
def nilImageChoice : OpenAIChoice :=
  { index := 0, message := nilImageMessage, finishReason := "stop" }

/-- An environment whose decoded response holds first `nilImageChoice` and then
the unresolved-tool `ghostChoice`. -/
def envNilImageGhost : Env :=
  { envBanana with
    unmarshalResponse := fun _ => Except.ok { choices := [nilImageChoice, ghostChoice] } }

/-- A store registering the tool `hammer` with identifier `tool9`. -/
def storeHammer : Store :=
  { storeNoTools with
    getToolFromNameAndRunId := fun name _ =>
      if name = "hammer" then Except.ok (some { Id := "tool9" }) else Except.ok none }

/-- An external response choice calling the registered tool `hammer`. -/
def hammerChoice : OpenAIChoice :=
  { index := 0,
    message := { role := "assistant", content := "", multiContent := none,
                 toolCalls := [{ function := { name := "hammer", arguments := "null" } }] },
    finishReason := "tool_calls" }

/-- An environment around `storeHammer`. -/
def envHammer : Env :=
  { envBanana with
    store := storeHammer,
    unmarshalResponse := fun _ => Except.ok { choices := [hammerChoice] } }

/-- A store for the state handler: the tool call `tc1` exists, its tool has one
supervisor chain `chain1`, and the chain-execution lookup reports absence
without a store error (`nil` execution id, `nil` error). -/
def storeNeverExecuted : Store :=
  { storeNoTools with
    getToolCall := fun id =>
      if id = "tc1" then Except.ok (some { ToolId := "tool1" }) else Except.ok none,
    getSupervisorChains := fun _ => Except.ok [{ ChainId := "chain1" }] }

/-- An environment around `storeNeverExecuted`. -/
def envNeverExecuted : Env :=
  { envBanana with store := storeNeverExecuted }

/-- A store for the state handler in which the tool call `tc1` has two chains:
`chainA` has been executed (its state is retrievable) while `chainB` has never
been executed and its lookup reports absence without a store error. -/
def storeOneExecuted : Store :=
  { storeNoTools with
    getToolCall := fun id =>
      if id = "tc1" then Except.ok (some { ToolId := "tool1" }) else Except.ok none,
    getSupervisorChains := fun _ =>
      Except.ok [{ ChainId := "chainA" }, { ChainId := "chainB" }],
    getChainExecutionFromChainAndToolCall := fun chainId _ =>
      if chainId = "chainA" then Except.ok (some "ce1") else Except.ok none,
    getChainExecutionState := fun _ => Except.ok { Data := "approved" } }

/-- An environment around `storeOneExecuted`. -/
def envOneExecuted : Env :=
  { envBanana with store := storeOneExecuted }

/-- The spec's description of the image scan (spec §4.1 step 2): the URL of the
*last* `image-url` part of a multi-content list, when one exists (a part whose
`image_url` object is absent carries no URL). -/
def lastImageURL (parts : List ChatMessagePart) : Option String :=
  match parts with
  | [] => none
  | p :: rest =>
      match lastImageURL rest with
      | some url => some url
      | none =>
          if p.type = "image_url" then
            match p.imageURL with
            | some img => some img.URL
            | none => none
          else none

/-- A message is safe for the multi-content scan when every `image_url` part of
its multi-part content carries an `image_url` object (non-nil pointer); the
scan of handlers2.go:182-188 panics exactly on the messages violating this. -/
def imageScanSafe (message : OpenAIMessage) : Bool :=
  match message.multiContent with
  | none => true
  | some parts =>
      parts.all (fun part => !(part.type == "image_url") || part.imageURL.isSome)

/-- The `SentinelChoice` produced by converting `hammerChoice` in `envHammer`
starting from counter 0. -/
def hammerConverted : SentinelChoice :=
  { SentinelId := "u", Index := 0,
    Message := { Id := some "u", Role := "assistant",
                 ToolCalls := some [{ Id := "u", ToolId := "tool9", Name := some "hammer",
                                      Arguments := some "null" }],
                 «Type» := some MessageType.text, Content := "" },
    FinishReason := "tool_calls" }

/-! ## Theorems -/

/-- C1: for a run with `k` messages already logged, filtering a request whose
converted message list is those `k` messages followed by `m` new ones returns
exactly the `m` new messages (the suffix after dropping the first `k`),
regardless of `k` — so exactly those messages are persisted as new. -/
theorem c1_filter_returns_exactly_new_suffix (store : Store) (runId : String)
    (logged newMsgs : List SentinelMessage)
    (h : store.getMessagesForRun runId = Except.ok logged) :
    filterRequestMessages store (logged ++ newMsgs) runId = GoResult.ok newMsgs := by
  simp [filterRequestMessages, h, goSliceFrom, List.drop_left]

/-- Witness for C1: with one message already logged and a request replaying it
plus one new message, exactly the new message survives filtering. -/
theorem c1_filter_witness :
    filterRequestMessages storeOneLogged [msgA, msgB] "run1" = GoResult.ok [msgB] :=
  c1_filter_returns_exactly_new_suffix storeOneLogged "run1" [msgA] [msgB] rfl

/-- C2 counterexample: with one message already logged and an empty incoming
message list, the filtering step does not complete with an error or an empty
result — the slice `requestMessages[numMessagesLogged:]` is out of range and
the code panics. -/
theorem c2_counterexample_excess_logged_panics :
    filterRequestMessages storeOneLogged [] "run1" =
      GoResult.panicked "runtime error: slice bounds out of range" := rfl

/-- C2 (amended): while the logged count does not exceed the incoming message
count, filtering never goes negative and returns exactly the suffix (no
legitimate new message is dropped); when the logged count exceeds the incoming
count, the slice is out of range and the code panics rather than returning an
error or an empty result. -/
theorem c2_amended_filter_total_only_below_logged_count (store : Store) (runId : String)
    (msgs logged : List SentinelMessage)
    (h : store.getMessagesForRun runId = Except.ok logged) :
    (logged.length ≤ msgs.length →
      filterRequestMessages store msgs runId = GoResult.ok (msgs.drop logged.length)) ∧
    (msgs.length < logged.length →
      filterRequestMessages store msgs runId =
        GoResult.panicked "runtime error: slice bounds out of range") := by
  refine ⟨fun hle => ?_, fun hlt => ?_⟩
  · simp [filterRequestMessages, h, goSliceFrom, hle]
  · simp [filterRequestMessages, h, goSliceFrom, Nat.not_le.mpr hlt]

/-- Witness for the amended C2: one logged message against a one-message
request filters to the empty suffix. -/
theorem c2_amended_witness :
    filterRequestMessages storeOneLogged [msgB] "run1" = GoResult.ok [] :=
  (c2_amended_filter_total_only_below_logged_count storeOneLogged "run1" [msgB] [msgA]
    rfl).1 (by decide)

/-- If some tool call in the list resolves to no registered tool, the tool-call
conversion loop fails with an error (for every identifier counter). -/
theorem convertToolCalls_error_of_unresolved (env : Env) (runId : String) :
    ∀ tcs : List OpenAIToolCall,
      (∃ tc ∈ tcs,
        env.store.getToolFromNameAndRunId tc.function.name runId = Except.ok none) →
      ∀ n : Nat, ∃ e, convertToolCalls env tcs runId n = Except.error e := by
  intro tcs
  induction tcs with
  | nil =>
    rintro ⟨tc, htc, -⟩
    exact absurd htc (List.not_mem_nil tc)
  | cons hd rest ih =>
    rintro ⟨tc, htc, hnone⟩ n
    rcases List.mem_cons.mp htc with heq | hmem
    · rw [heq] at hnone
      exact ⟨"error converting tool call: " ++ ("tool not found: " ++ hd.function.name),
        by simp only [convertToolCalls, convertToolCall, hnone]⟩
    · cases hcc : convertToolCall env hd runId n with
      | error e =>
        exact ⟨"error converting tool call: " ++ e, by simp only [convertToolCalls, hcc]⟩
      | ok p =>
        obtain ⟨stc, n1⟩ := p
        obtain ⟨e, he⟩ := ih ⟨tc, hmem, hnone⟩ n1
        exact ⟨e, by simp only [convertToolCalls, hcc, he]⟩

/-- Every `image_url` part of a scan-safe message's multi-part content carries
an image object. -/
theorem imageScanSafe_parts (message : OpenAIMessage) (parts : List ChatMessagePart)
    (hsafe : imageScanSafe message = true) (hmc : message.multiContent = some parts) :
    ∀ part ∈ parts, part.type = "image_url" → part.imageURL.isSome = true := by
  simp only [imageScanSafe, hmc, List.all_eq_true] at hsafe
  intro part hmem htype
  have h := hsafe part hmem
  simp [htype] at h
  exact h

/-- Under scan-safety of the parts, the multi-content loop completes, and the
last image-url part wins, starting from any accumulator. -/
theorem scanMultiContent_ok_of_wellformed :
    ∀ parts : List ChatMessagePart,
      (∀ part ∈ parts, part.type = "image_url" → part.imageURL.isSome = true) →
      ∀ acc : MessageType × String,
        scanMultiContent parts acc =
          GoResult.ok (match lastImageURL parts with
            | some url => (MessageType.imageUrl, url)
            | none => acc) := by
  intro parts
  induction parts with
  | nil => intro _ acc; simp [scanMultiContent, lastImageURL]
  | cons p rest ih =>
    intro hgood acc
    by_cases hp : p.type = "image_url"
    · cases himg : p.imageURL with
      | none =>
        have hs := hgood p (List.mem_cons_self p rest) hp
        rw [himg] at hs
        exact absurd hs (by simp)
      | some img =>
        simp only [scanMultiContent, if_pos hp, himg]
        rw [ih (fun x hx => hgood x (List.mem_cons_of_mem p hx))]
        cases hl : lastImageURL rest with
        | some url => simp [lastImageURL, hl]
        | none => simp [lastImageURL, hl, hp, himg]
    · simp only [scanMultiContent, if_neg hp]
      rw [ih (fun x hx => hgood x (List.mem_cons_of_mem p hx))]
      cases hl : lastImageURL rest with
      | some url => simp [lastImageURL, hl]
      | none => simp [lastImageURL, hl, hp]

/-- A multi-content list containing an `image_url` part with a nil image
pointer makes the scan panic, from any accumulator. -/
theorem scanMultiContent_panics_of_nil_image :
    ∀ parts : List ChatMessagePart,
      (∃ part ∈ parts, part.type = "image_url" ∧ part.imageURL = none) →
      ∀ acc : MessageType × String,
        scanMultiContent parts acc =
          GoResult.panicked
            "runtime error: invalid memory address or nil pointer dereference" := by
  intro parts
  induction parts with
  | nil =>
    rintro ⟨part, hmem, -⟩
    exact absurd hmem (List.not_mem_nil part)
  | cons p rest ih =>
    rintro ⟨part, hmem, htype, hnil⟩ acc
    rcases List.mem_cons.mp hmem with heq | hmem2
    · rw [heq] at htype hnil
      simp only [scanMultiContent, if_pos htype, hnil]
    · by_cases hp : p.type = "image_url"
      · cases himg : p.imageURL with
        | none => simp only [scanMultiContent, if_pos hp, himg]
        | some img =>
          simp only [scanMultiContent, if_pos hp, himg]
          exact ih ⟨part, hmem2, htype, hnil⟩ (MessageType.imageUrl, img.URL)
      · simp only [scanMultiContent, if_neg hp]
        exact ih ⟨part, hmem2, htype, hnil⟩ acc

/-- A message whose tool calls contain an unresolved name fails conversion with
a Go error (the tool calls convert before the content scan is reached). -/
theorem convertMessage_err_of_unresolved (env : Env) (runId : String)
    (message : OpenAIMessage)
    (hbad : ∃ tc ∈ message.toolCalls,
      env.store.getToolFromNameAndRunId tc.function.name runId = Except.ok none)
    (n : Nat) : ∃ e, convertMessage env message runId n = GoResult.err e := by
  obtain ⟨e, he⟩ := convertToolCalls_error_of_unresolved env runId message.toolCalls hbad n
  exact ⟨"error converting tool calls: " ++ e, by simp only [convertMessage, he]⟩

/-- Converting a scan-safe message never panics. -/
theorem convertMessage_not_panicked (env : Env) (message : OpenAIMessage)
    (runId : String) (n : Nat) (hsafe : imageScanSafe message = true) (m : String) :
    convertMessage env message runId n ≠ GoResult.panicked m := by
  intro hcontra
  cases htc : convertToolCalls env message.toolCalls runId n with
  | error e =>
    simp only [convertMessage, htc] at hcontra
    exact GoResult.noConfusion hcontra
  | ok p =>
    obtain ⟨tcs, n1⟩ := p
    cases hmc : message.multiContent with
    | none =>
      simp only [convertMessage, htc, hmc] at hcontra
      exact GoResult.noConfusion hcontra
    | some parts =>
      have hgood := imageScanSafe_parts message parts hsafe hmc
      have hscan := scanMultiContent_ok_of_wellformed parts hgood (MessageType.text, "")
      simp only [convertMessage, htc, hmc, hscan] at hcontra
      exact GoResult.noConfusion hcontra

/-- If any choice's message contains an unresolved tool name, the choice
conversion can never succeed: it returns a Go error or panics. -/
theorem convertChoices_not_ok_of_unresolved (env : Env) (runId : String) :
    ∀ cs : List OpenAIChoice,
      (∃ c ∈ cs, ∃ tc ∈ c.message.toolCalls,
        env.store.getToolFromNameAndRunId tc.function.name runId = Except.ok none) →
      ∀ n : Nat,
        (∃ e, convertChoices env cs runId n = GoResult.err e) ∨
        (∃ m, convertChoices env cs runId n = GoResult.panicked m) := by
  intro cs
  induction cs with
  | nil =>
    rintro ⟨c, hc, -⟩
    exact absurd hc (List.not_mem_nil c)
  | cons hd rest ih =>
    rintro ⟨c, hc, hbad⟩ n
    rcases List.mem_cons.mp hc with heq | hmem
    · rw [heq] at hbad
      obtain ⟨e, he⟩ := convertMessage_err_of_unresolved env runId hd.message hbad n
      exact Or.inl ⟨"error converting message: " ++ e, by simp only [convertChoices, he]⟩
    · cases hcm : convertMessage env hd.message runId n with
      | err e =>
        exact Or.inl ⟨"error converting message: " ++ e, by simp only [convertChoices, hcm]⟩
      | panicked m => exact Or.inr ⟨m, by simp only [convertChoices, hcm]⟩
      | ok p =>
        obtain ⟨message, n1⟩ := p
        rcases ih ⟨c, hmem, hbad⟩ (n1 + 1) with ⟨e, he⟩ | ⟨m, hm⟩
        · exact Or.inl ⟨e, by simp only [convertChoices, hcm, he]⟩
        · exact Or.inr ⟨m, by simp only [convertChoices, hcm, hm]⟩

/-- When every choice's message is additionally scan-safe, an unresolved tool
name makes the choice conversion fail with a Go error (no panic). -/
theorem convertChoices_err_of_unresolved_safe (env : Env) (runId : String) :
    ∀ cs : List OpenAIChoice,
      (∀ c ∈ cs, imageScanSafe c.message = true) →
      (∃ c ∈ cs, ∃ tc ∈ c.message.toolCalls,
        env.store.getToolFromNameAndRunId tc.function.name runId = Except.ok none) →
      ∀ n : Nat, ∃ e, convertChoices env cs runId n = GoResult.err e := by
  intro cs
  induction cs with
  | nil =>
    rintro - ⟨c, hc, -⟩
    exact absurd hc (List.not_mem_nil c)
  | cons hd rest ih =>
    rintro hsafe ⟨c, hc, hbad⟩ n
    rcases List.mem_cons.mp hc with heq | hmem
    · rw [heq] at hbad
      obtain ⟨e, he⟩ := convertMessage_err_of_unresolved env runId hd.message hbad n
      exact ⟨"error converting message: " ++ e, by simp only [convertChoices, he]⟩
    · cases hcm : convertMessage env hd.message runId n with
      | err e =>
        exact ⟨"error converting message: " ++ e, by simp only [convertChoices, hcm]⟩
      | panicked m =>
        exact absurd hcm
          (convertMessage_not_panicked env hd.message runId n
            (hsafe hd (List.mem_cons_self hd rest)) m)
      | ok p =>
        obtain ⟨message, n1⟩ := p
        obtain ⟨e, he⟩ :=
          ih (fun x hx => hsafe x (List.mem_cons_of_mem hd hx)) ⟨c, hmem, hbad⟩ (n1 + 1)
        exact ⟨e, by simp only [convertChoices, hcm, he]⟩

/-- C3 counterexample: this decoded response contains a tool call naming the
unregistered tool `ghost` (second conjunct), yet the ingestion does not fail
with a 400-class error — the earlier choice's multi-part content holds an
`image_url` part with a nil image pointer and the scan panics before the
unresolved tool name is ever looked up.  No store write happens either way. -/
theorem c3_counterexample_scan_panic_preempts_400 :
    apiCreateNewChatHandler envNilImageGhost "run1"
        (Except.ok { RequestData := "rq", ResponseData := "rs" }) =
      { resp := ChatHandlerResp.panicked
          "runtime error: invalid memory address or nil pointer dereference",
        write := none } ∧
    storeNoTools.getToolFromNameAndRunId "ghost" "run1" = Except.ok none :=
  ⟨rfl, rfl⟩

/-- C3 (amended): when the decoded response contains a tool call whose function
name does not resolve to a tool registered for the run, the store write
(`CreateChatRequest`) is never reached — no chat, choice, message or tool call
is persisted.  Provided message conversion does not panic first (every response
choice's message is scan-safe), the ingestion moreover fails with an HTTP 400
error; otherwise it aborts with the scan's nil-pointer panic instead of a 400. -/
theorem c3_amended_unresolved_tool_never_writes (env : Env) (runId : String)
    (payload : SentinelChat) (jsonRequest : String)
    (requestMessages : List SentinelMessage) (n1 : Nat)
    (newRequestMessages : List SentinelMessage) (jsonResponse : String)
    (response : OpenAIResponse)
    (hreq : validateAndDecodeRequest env payload.RequestData runId 0 =
      GoResult.ok (jsonRequest, requestMessages, n1))
    (hfil : filterRequestMessages env.store requestMessages runId =
      GoResult.ok newRequestMessages)
    (hresp : validateAndDecodeResponse env payload.ResponseData =
      Except.ok (jsonResponse, response))
    (hbad : ∃ c ∈ response.choices, ∃ tc ∈ c.message.toolCalls,
      env.store.getToolFromNameAndRunId tc.function.name runId = Except.ok none) :
    (apiCreateNewChatHandler env runId (Except.ok payload)).write = none ∧
    ((∀ c ∈ response.choices, imageScanSafe c.message = true) →
      ∃ e, apiCreateNewChatHandler env runId (Except.ok payload) =
        { resp := ChatHandlerResp.errorResp 400 ("Error converting choices: " ++ e) "",
          write := none }) := by
  constructor
  · rcases convertChoices_not_ok_of_unresolved env runId response.choices hbad n1 with
      ⟨e, he⟩ | ⟨m, hm⟩
    · simp only [apiCreateNewChatHandler, hreq, hfil, hresp, he]
    · simp only [apiCreateNewChatHandler, hreq, hfil, hresp, hm]
  · intro hsafe
    obtain ⟨e, he⟩ :=
      convertChoices_err_of_unresolved_safe env runId response.choices hsafe hbad n1
    exact ⟨e, by simp only [apiCreateNewChatHandler, hreq, hfil, hresp, he]⟩

/-- Witness for the amended C3: ingesting a scan-safe response whose only tool
call names the unregistered tool `ghost` responds 400 and never reaches the
store write. -/
theorem c3_witness :
    (apiCreateNewChatHandler envGhost "run1"
        (Except.ok { RequestData := "rq", ResponseData := "rs" })).write = none ∧
    ∃ e, apiCreateNewChatHandler envGhost "run1"
        (Except.ok { RequestData := "rq", ResponseData := "rs" }) =
      { resp := ChatHandlerResp.errorResp 400 ("Error converting choices: " ++ e) "",
        write := none } :=
  have h := c3_amended_unresolved_tool_never_writes envGhost "run1"
    { RequestData := "rq", ResponseData := "rs" } "" [] 0 [] ""
    { choices := [ghostChoice] } rfl rfl rfl
    ⟨ghostChoice, List.mem_singleton_self ghostChoice,
     { function := { name := "ghost", arguments := "null" } },
     List.mem_singleton_self _, rfl⟩
  ⟨h.1, h.2 (by decide)⟩

/-- C4 counterexample: converting a choice whose provider finish reason is the
unknown string `banana` succeeds and the resulting choice carries that provider
string unchanged — there is no explicit unrecognized variant. -/
theorem c4_counterexample_unknown_reason_passes_through :
    convertChoices envBanana [bananaChoice] "run1" 0 =
      GoResult.ok
        ([{ SentinelId := "u", Index := 0,
            Message := { Id := some "u", Role := "assistant",
                         ToolCalls := some [], «Type» := some MessageType.text,
                         Content := "hi" },
            FinishReason := "banana" }], 2) ∧
    "banana" ∉ ["stop", "length", "tool_calls", "content_filter", "function_call", "null"] :=
  ⟨rfl, by decide⟩

/-- C4 (amended): conversion never fails because of the finish reason; every
converted choice carries the provider finish-reason string verbatim (the
conversion is a value-preserving cast), with no normalization of unknown
values to an unrecognized variant. -/
theorem c4_amended_finish_reason_cast_verbatim (env : Env) (runId : String) :
    ∀ (choices : List OpenAIChoice) (n : Nat) (l : List SentinelChoice) (n2 : Nat),
      convertChoices env choices runId n = GoResult.ok (l, n2) →
      l.map (fun c => c.FinishReason) = choices.map (fun c => c.finishReason) := by
  intro choices
  induction choices with
  | nil =>
    intro n l n2 h
    simp only [convertChoices, GoResult.ok.injEq, Prod.mk.injEq] at h
    simp [h.1.symm]
  | cons hd rest ih =>
    intro n l n2 h
    cases hcm : convertMessage env hd.message runId n with
    | err e =>
      simp only [convertChoices, hcm] at h
      exact GoResult.noConfusion h
    | panicked m =>
      simp only [convertChoices, hcm] at h
      exact GoResult.noConfusion h
    | ok p =>
      obtain ⟨message, n1⟩ := p
      cases hcc : convertChoices env rest runId (n1 + 1) with
      | err e =>
        simp only [convertChoices, hcm, hcc] at h
        exact GoResult.noConfusion h
      | panicked m =>
        simp only [convertChoices, hcm, hcc] at h
        exact GoResult.noConfusion h
      | ok q =>
        obtain ⟨l2, n3⟩ := q
        simp only [convertChoices, hcm, hcc, GoResult.ok.injEq, Prod.mk.injEq] at h
        obtain ⟨hl, -⟩ := h
        subst hl
        simp only [List.map_cons, List.cons.injEq]
        exact ⟨trivial, ih (n1 + 1) l2 n3 hcc⟩

/-- Witness for the amended C4: the concrete `banana` choice converts to a
choice whose finish reason equals the provider string. -/
theorem c4_amended_witness :
    ([{ SentinelId := "u", Index := 0,
        Message := { Id := some "u", Role := "assistant", ToolCalls := some [],
                     «Type» := some MessageType.text, Content := "hi" },
        FinishReason := "banana" }] : List SentinelChoice).map (fun c => c.FinishReason) =
      [bananaChoice].map (fun c => c.finishReason) :=
  c4_amended_finish_reason_cast_verbatim envBanana "run1" [bananaChoice] 0 _ 2 rfl

/-- C5: the ingestion handler answers a failing store operation with HTTP 400,
not 500 — both when `CreateChatRequest` fails and when `GetMessagesForRun`
fails inside the filtering step — contradicting the error taxonomy (store
failures are supposed to be 500-class) honoured by the other handlers in the
same file. -/
theorem c5_store_failures_respond_400 :
    (apiCreateNewChatHandler envWriteDown "run1"
        (Except.ok { RequestData := "rq", ResponseData := "rs" })).resp =
      ChatHandlerResp.errorResp 400 "Error creating chat request: database unavailable" "" ∧
    (apiCreateNewChatHandler envReadDown "run1"
        (Except.ok { RequestData := "rq", ResponseData := "rs" })).resp =
      ChatHandlerResp.errorResp 400
        "Error filtering request messages: error getting messages for run: database unavailable"
        "" :=
  ⟨rfl, rfl⟩

/-- C6 counterexample: converting a message whose multi-part content is a
single `image_url` part with a nil image pointer neither classifies the
message nor returns an error — the scan dereferences the nil `ImageURL`
pointer and the conversion panics. -/
theorem c6_counterexample_nil_image_part_panics :
    convertMessage envBanana nilImageMessage "run1" 0 =
      GoResult.panicked
        "runtime error: invalid memory address or nil pointer dereference" := rfl

/-- C6 (amended): provided its tool calls convert, a *scan-safe* message (every
image-url part of its multi-part content carries an image-url object) always
converts without error: multi-part content with at least one image-url part is
classified `ImageUrl` with the URL of the *last* such part as content,
multi-part content with no image part becomes a `Text` message with empty
content, and a message without multi-part content becomes a `Text` message
with its raw text content (which may be empty).  A multi-part message holding
an image-url part without an image-url object instead panics the conversion
with a nil-pointer dereference. -/
theorem c6_amended_classification_of_scan_safe (env : Env) (message : OpenAIMessage)
    (runId : String) (n : Nat) (tcs : List SentinelToolCall) (n1 : Nat)
    (h : convertToolCalls env message.toolCalls runId n = Except.ok (tcs, n1)) :
    (imageScanSafe message = true →
      convertMessage env message runId n =
        GoResult.ok
          ({ Id := some (env.gen n1), Role := message.role, ToolCalls := some tcs,
             «Type» := some (match message.multiContent with
               | none => MessageType.text
               | some parts =>
                   match lastImageURL parts with
                   | some _ => MessageType.imageUrl
                   | none => MessageType.text),
             Content := (match message.multiContent with
               | none => message.content
               | some parts =>
                   match lastImageURL parts with
                   | some url => url
                   | none => "") }, n1 + 1)) ∧
    (∀ parts, message.multiContent = some parts →
      (∃ part ∈ parts, part.type = "image_url" ∧ part.imageURL = none) →
      convertMessage env message runId n =
        GoResult.panicked
          "runtime error: invalid memory address or nil pointer dereference") := by
  constructor
  · intro hsafe
    cases hmc : message.multiContent with
    | none => simp [convertMessage, h, hmc]
    | some parts =>
      have hgood := imageScanSafe_parts message parts hsafe hmc
      simp only [convertMessage, h, hmc,
        scanMultiContent_ok_of_wellformed parts hgood (MessageType.text, "")]
      cases lastImageURL parts <;> rfl
  · intro parts hmc hbadpart
    simp only [convertMessage, h, hmc,
      scanMultiContent_panics_of_nil_image parts hbadpart (MessageType.text, "")]

/-- Witness for the amended C6: the scan-safe message carrying a text part and
two image-url parts is classified `ImageUrl` with the URL of the last image
part. -/
theorem c6_witness :
    convertMessage envBanana twoImageMessage "run1" 0 =
      GoResult.ok ({ Id := some "u", Role := "user", ToolCalls := some [],
                     «Type» := some MessageType.imageUrl,
                     Content := "https://two" }, 1) :=
  (c6_amended_classification_of_scan_safe envBanana twoImageMessage "run1" 0 [] 0 rfl).1 rfl

/-- The projection loop of `extractChatIds` maps each choice to its identifier
entry, in order, after the accumulator. -/
theorem extractChatIdsLoop_eq_map :
    ∀ (choices : List SentinelChoice) (acc : List ChoiceIds),
      extractChatIdsLoop choices acc =
        acc ++ choices.map (fun choice =>
          { ChoiceId := choice.SentinelId,
            MessageId := choice.Message.Id.get!,
            ToolCallIds :=
              match choice.Message.ToolCalls with
              | none => []
              | some toolCalls =>
                  toolCalls.map (fun toolCall =>
                    { ToolCallId := some toolCall.Id, ToolId := some toolCall.ToolId }) }) := by
  intro choices
  induction choices with
  | nil => intro acc; simp [extractChatIdsLoop]
  | cons hd rest ih =>
    intro acc
    simp only [extractChatIdsLoop, List.map_cons]
    rw [ih]
    simp

/-- A successfully converted message always carries a message identifier and a
(tool-call) list, i.e. neither pointer is nil. -/
theorem convertMessage_shape (env : Env) (message : OpenAIMessage) (runId : String)
    (n : Nat) (m : SentinelMessage) (n1 : Nat)
    (h : convertMessage env message runId n = GoResult.ok (m, n1)) :
    m.Id.isSome = true ∧ m.ToolCalls.isSome = true := by
  cases htc : convertToolCalls env message.toolCalls runId n with
  | error e =>
    simp only [convertMessage, htc] at h
    exact GoResult.noConfusion h
  | ok p =>
    obtain ⟨tcs, k⟩ := p
    cases hmc : message.multiContent with
    | none =>
      simp only [convertMessage, htc, hmc, GoResult.ok.injEq, Prod.mk.injEq] at h
      obtain ⟨hm, -⟩ := h
      subst hm
      exact ⟨rfl, rfl⟩
    | some parts =>
      cases hscan : scanMultiContent parts (MessageType.text, "") with
      | err e =>
        simp only [convertMessage, htc, hmc, hscan] at h
        exact GoResult.noConfusion h
      | panicked mm =>
        simp only [convertMessage, htc, hmc, hscan] at h
        exact GoResult.noConfusion h
      | ok tc =>
        simp only [convertMessage, htc, hmc, hscan, GoResult.ok.injEq, Prod.mk.injEq] at h
        obtain ⟨hm, -⟩ := h
        subst hm
        exact ⟨rfl, rfl⟩

/-- Every choice produced by `convertChoices` has a non-nil message identifier
and a non-nil tool-call list. -/
theorem convertChoices_message_fields (env : Env) (runId : String) :
    ∀ (cs : List OpenAIChoice) (n : Nat) (l : List SentinelChoice) (n2 : Nat),
      convertChoices env cs runId n = GoResult.ok (l, n2) →
      ∀ c ∈ l, c.Message.Id.isSome = true ∧ c.Message.ToolCalls.isSome = true := by
  intro cs
  induction cs with
  | nil =>
    intro n l n2 h c hc
    simp only [convertChoices, GoResult.ok.injEq, Prod.mk.injEq] at h
    rw [← h.1] at hc
    exact absurd hc (List.not_mem_nil c)
  | cons hd rest ih =>
    intro n l n2 h c hc
    cases hcm : convertMessage env hd.message runId n with
    | err e =>
      simp only [convertChoices, hcm] at h
      exact GoResult.noConfusion h
    | panicked m =>
      simp only [convertChoices, hcm] at h
      exact GoResult.noConfusion h
    | ok p =>
      obtain ⟨message, n1⟩ := p
      cases hcc : convertChoices env rest runId (n1 + 1) with
      | err e =>
        simp only [convertChoices, hcm, hcc] at h
        exact GoResult.noConfusion h
      | panicked m =>
        simp only [convertChoices, hcm, hcc] at h
        exact GoResult.noConfusion h
      | ok q =>
        obtain ⟨l2, n3⟩ := q
        simp only [convertChoices, hcm, hcc, GoResult.ok.injEq, Prod.mk.injEq] at h
        obtain ⟨hl, -⟩ := h
        subst hl
        rcases List.mem_cons.mp hc with heq | hmem
        · subst heq
          exact convertMessage_shape env hd.message runId n message n1 hcm
        · exact ih (n1 + 1) l2 n3 hcc c hmem

/-- C7: for choices produced by a successful conversion, the identifier
projection contains exactly one entry per converted choice, in order, each
carrying that choice's identifier, its message's identifier, and exactly one
`{toolCallId, toolId}` pair per tool call of that choice's message — no entry
or pair is omitted or duplicated. -/
theorem c7_projection_counts (env : Env) (runId : String) (cs : List OpenAIChoice)
    (n : Nat) (choices : List SentinelChoice) (n2 : Nat) (chatId : String)
    (h : convertChoices env cs runId n = GoResult.ok (choices, n2)) :
    (extractChatIds chatId choices).ChatId = chatId ∧
    (extractChatIds chatId choices).ChoiceIds =
      choices.map (fun choice =>
        { ChoiceId := choice.SentinelId,
          MessageId := choice.Message.Id.get!,
          ToolCallIds :=
            match choice.Message.ToolCalls with
            | none => []
            | some toolCalls =>
                toolCalls.map (fun toolCall =>
                  { ToolCallId := some toolCall.Id, ToolId := some toolCall.ToolId }) }) ∧
    (extractChatIds chatId choices).ChoiceIds.length = choices.length ∧
    ∀ c ∈ choices, c.Message.Id.isSome = true ∧ c.Message.ToolCalls.isSome = true := by
  refine ⟨rfl, ?_, ?_, convertChoices_message_fields env runId cs n choices n2 h⟩
  · simpa [extractChatIds] using extractChatIdsLoop_eq_map choices []
  · simp [extractChatIds, extractChatIdsLoop_eq_map]

/-- Witness for C7: converting a response with one choice holding one resolved
tool call yields a projection with exactly one entry. -/
theorem c7_witness :
    (extractChatIds "chat1" [hammerConverted]).ChatId = "chat1" ∧
    (extractChatIds "chat1" [hammerConverted]).ChoiceIds.length =
      [hammerConverted].length :=
  ⟨(c7_projection_counts envHammer "run1" [hammerChoice] 0 [hammerConverted] 3 "chat1"
      rfl).1,
   (c7_projection_counts envHammer "run1" [hammerChoice] 0 [hammerConverted] 3 "chat1"
      rfl).2.2.1⟩

/-- When one chain's execution lookup reports absence without a store error and
every earlier chain resolves, the chain loop ends in the nil-pointer panic of
`*chainExecutionId`. -/
theorem collectChainStates_panics_of_absence (store : Store) (toolCallId : String)
    (bad : SupervisorChain) (post : List SupervisorChain)
    (h5 : store.getChainExecutionFromChainAndToolCall bad.ChainId toolCallId =
      Except.ok none) :
    ∀ pre : List SupervisorChain,
      (∀ c ∈ pre, ∃ ceid st,
        store.getChainExecutionFromChainAndToolCall c.ChainId toolCallId =
          Except.ok (some ceid) ∧
        store.getChainExecutionState ceid = Except.ok st) →
      ∀ acc, collectChainStates store toolCallId (pre ++ bad :: post) acc =
        Except.error (StateHandlerResp.panicked
          "runtime error: invalid memory address or nil pointer dereference") := by
  intro pre
  induction pre with
  | nil => intro _ acc; simp [collectChainStates, h5]
  | cons c rest ih =>
    intro h4 acc
    obtain ⟨ceid, st, hce, hst⟩ := h4 c (List.mem_cons_self c rest)
    simp only [List.cons_append, collectChainStates, hce, hst]
    exact ih (fun x hx => h4 x (List.mem_cons_of_mem _ hx)) (acc ++ [st])

/-- C9 counterexample: for a tool call whose single configured chain has never
been executed (the lookup returns absence without a store error), the handler
does not report an error to the caller — it dereferences the missing execution
identifier and panics. -/
theorem c9_counterexample_absent_execution_panics :
    apiGetToolCallStateHandler envNeverExecuted "tc1" =
      StateHandlerResp.panicked
        "runtime error: invalid memory address or nil pointer dereference" := rfl

/-- C9 (amended): only a chain-execution lookup that fails with a store error
is reported to the caller (as a 500); a lookup returning absence *without* an
error is not handled — the handler dereferences the nil execution identifier
and panics, for any store and any position of the never-executed chain. -/
theorem c9_amended_absence_dereferences_nil (env : Env) (toolCallId : String)
    (toolCall : ToolCall) (toolId : String) (pre post : List SupervisorChain)
    (bad : SupervisorChain)
    (h1 : env.store.getToolCall toolCallId = Except.ok (some toolCall))
    (h2 : env.uuidParse toolCall.ToolId = Except.ok toolId)
    (h3 : env.store.getSupervisorChains toolId = Except.ok (pre ++ bad :: post))
    (h4 : ∀ c ∈ pre, ∃ ceid st,
      env.store.getChainExecutionFromChainAndToolCall c.ChainId toolCallId =
        Except.ok (some ceid) ∧
      env.store.getChainExecutionState ceid = Except.ok st)
    (h5 : env.store.getChainExecutionFromChainAndToolCall bad.ChainId toolCallId =
      Except.ok none) :
    apiGetToolCallStateHandler env toolCallId =
      StateHandlerResp.panicked
        "runtime error: invalid memory address or nil pointer dereference" := by
  have hloop := collectChainStates_panics_of_absence env.store toolCallId bad post h5 pre h4 []
  simp only [apiGetToolCallStateHandler, h1, h2, h3, hloop]

/-- Witness for the amended C9: with chain `chainA` executed and chain `chainB`
never executed, the handler panics when it reaches `chainB`. -/
theorem c9_witness :
    apiGetToolCallStateHandler envOneExecuted "tc1" =
      StateHandlerResp.panicked
        "runtime error: invalid memory address or nil pointer dereference" :=
  c9_amended_absence_dereferences_nil envOneExecuted "tc1" { ToolId := "tool1" } "tool1"
    [{ ChainId := "chainA" }] [] { ChainId := "chainB" } rfl rfl rfl
    (fun c hc => by
      obtain rfl := List.mem_singleton.mp hc
      exact ⟨"ce1", { Data := "approved" }, rfl, rfl⟩)
    rfl

/-- Register and unregister steps do not change any delivery history. -/
theorem hubStep_register_delivered (st : HubState) (t : Nat) :
    (hubStep st (HubCmd.register t)).delivered = st.delivered := by
  simp only [hubStep]
  split <;> rfl

/-- A publish appends the event exactly to the histories of the subscribers
registered at this moment. -/
theorem hubStep_publish_delivered (st : HubState) (e s : Nat) :
    (hubStep st (HubCmd.publish e)).delivered s =
      if s ∈ st.registered then st.delivered s ++ [e] else st.delivered s := rfl

/-- Running the hub extends each subscriber's delivery history by exactly the
events published while that subscriber was registered, in publish order. -/
theorem hubRun_delivered (s : Nat) :
    ∀ (cmds : List HubCmd) (st : HubState),
      (hubRun st cmds).delivered s = st.delivered s ++ publishesSeenBy s st cmds := by
  intro cmds
  induction cmds with
  | nil => intro st; simp [hubRun, publishesSeenBy]
  | cons c rest ih =>
    intro st
    cases c with
    | register t =>
      simp only [hubRun, publishesSeenBy]
      rw [ih, hubStep_register_delivered]
    | unregister t =>
      simp only [hubRun, publishesSeenBy]
      rw [ih]
      rfl
    | publish e =>
      simp only [hubRun, publishesSeenBy]
      rw [ih, hubStep_publish_delivered]
      by_cases hs : s ∈ st.registered
      · simp [hs, List.append_assoc]
      · simp [hs]

/-- The events a subscriber sees form a subsequence of the full publish log, so
they arrive in publish order relative to every other event. -/
theorem publishesSeenBy_sublist (s : Nat) :
    ∀ (cmds : List HubCmd) (st : HubState),
      List.Sublist (publishesSeenBy s st cmds) (publishLog cmds) := by
  intro cmds
  induction cmds with
  | nil => intro st; simp [publishesSeenBy, publishLog]
  | cons c rest ih =>
    intro st
    cases c with
    | register t => simpa [publishesSeenBy, publishLog] using ih (hubStep st (HubCmd.register t))
    | unregister t =>
      simpa [publishesSeenBy, publishLog] using ih (hubStep st (HubCmd.unregister t))
    | publish e =>
      simp only [publishesSeenBy, publishLog]
      by_cases hs : s ∈ st.registered
      · simp only [hs, if_pos, List.singleton_append]
        exact List.Sublist.cons₂ e (ih (hubStep st (HubCmd.publish e)))
      · simp only [hs, if_neg, List.nil_append]
        exact List.Sublist.cons e (ih (hubStep st (HubCmd.publish e)))

/-- C10: starting from the empty hub, each subscriber's delivery history equals
exactly the sequence of events published while it was registered (each such
event delivered exactly once, events published before its registration never
delivered), and that history is a subsequence of the full publish log, i.e.
delivery preserves publish order relative to every other event. -/
theorem c10_hub_fanout_order_no_replay (cmds : List HubCmd) (s : Nat) :
    (hubRun hubInit cmds).delivered s = publishesSeenBy s hubInit cmds ∧
    List.Sublist (publishesSeenBy s hubInit cmds) (publishLog cmds) :=
  ⟨by simpa [hubInit] using hubRun_delivered s cmds hubInit,
   publishesSeenBy_sublist s cmds hubInit⟩

end Sentinel
